import Mathlib

/-!
Shallow embedding of the session/credential core of the AI-Dual-Console
repository (src/main/main.js and src/main/database.js).

The JavaScript main process keeps three pieces of state that the claims
talk about:
  * the SQLite `user` table (database.js) — modelled as a list of rows,
    with the `email TEXT UNIQUE` constraint enforced by `saveUserToDB`;
  * the module-level mutable `currentUser` variable — an `Option`;
  * the durable `user-session.json` file — modelled by `SessionFile`,
    whose constructors correspond to the observable outcomes of
    `fs.existsSync` + `JSON.parse` in `loadSavedSession`:
      `absent`        — the file does not exist,
      `unparseable`   — the file exists but `JSON.parse` throws
                        (e.g. the file holds the text `not json`),
      `parsedInvalid` — the file parses but fails the truthiness check
                        `sessionData && sessionData.user && sessionData.timestamp`
                        (e.g. the file holds `{}` or `null`),
      `record r`      — the file parses to a well-shaped session record.
    A parsed record whose `timestamp` field is `0` is also rejected by the
    JS truthiness check; that case is kept faithfully inside the `record`
    branch of `loadSavedSession`.

Timestamps are `Nat` milliseconds (`Date.now()`).  JS computes the session
age with signed subtraction while the model uses truncated `Nat`
subtraction; the two agree on the Boolean `age < SESSION_TIMEOUT` because a
negative JS age and a truncated-to-zero Nat age both compare below the
strictly positive timeout.

bcrypt is modelled by its interface contract: `bcrypt.hash(p, rounds)`
produces a self-describing value (salt, work factor, digest) with a fresh
random salt — the salt is an explicit argument here — and
`bcrypt.compare(p, h)` recomputes the digest from the salt embedded in `h`.
The digest function is a concrete executable stand-in; the claims below
depend only on `compare (p, hash salt p) = true` and on digests being able
to differ, never on one-wayness.
-/

/-- Values stored in a user's preference object (`darkMode: false`,
`lastUsedAI: 'claude'`, ...). -/
inductive PrefVal where
  | bool (b : Bool)
  | str (s : String)
deriving DecidableEq, Repr

/-- A JS preference object, as an association list of its own properties. -/
abbrev Prefs := List (String × PrefVal)

/-- Property lookup on a preference object: the value of the first entry
carrying the key, if any. -/
def lookupPref (prefs : Prefs) (k : String) : Option PrefVal :=
  match prefs with
  | [] => none
  | p :: ps => if p.1 = k then some p.2 else lookupPref ps k

/-- Membership test for a property name. -/
def containsKey (prefs : Prefs) (k : String) : Bool :=
  match prefs with
  | [] => false
  | p :: ps => p.1 = k || containsKey ps k

/-- A JS object has no duplicate property names; assoc lists that stand for
JS objects satisfy this. -/
def NodupKeys (prefs : Prefs) : Prop :=
  (prefs.map (fun p => p.1)).Nodup

/-- JS property assignment `obj[k] = v` (as performed key-by-key by object
spread): overwrite the value if the key is present, append it otherwise. -/
def setPref (prefs : Prefs) (k : String) (v : PrefVal) : Prefs :=
  if containsKey prefs k then
    prefs.map (fun p => if p.1 = k then (k, v) else p)
  else
    prefs ++ [(k, v)]

/-- JS object spread `{ ...old, ...patch }`: start from `old` and assign
each property of `patch` in order. -/
def mergePrefs (old patch : Prefs) : Prefs :=
  patch.foldl (fun acc kv => setPref acc kv.1 kv.2) old

/-- Result of `bcrypt.hash`: a self-describing encoded value carrying the
salt, the work factor and the digest. -/
structure HashString where
  salt : Nat
  rounds : Nat
  digest : Nat
deriving DecidableEq, Repr

/-- Executable stand-in for the bcrypt digest of `password` under `salt`,
reduced modulo 2^32. -/
def bcryptDigest (salt : Nat) (password : String) : Nat :=
  password.data.foldl (fun a c => (a * 131 + c.toNat + salt) % 2 ^ 32) 5381

/-- Source constant `saltRounds = 10` in `hashPassword`. -/
def saltRounds : Nat := 10

/-- Source `hashPassword(password)` = `bcrypt.hash(password, saltRounds)`;
the per-call random salt is the explicit `salt` argument. -/
def hashPassword (salt : Nat) (password : String) : HashString :=
  { salt := salt, rounds := saltRounds, digest := bcryptDigest salt password }

/-- Source `comparePassword(password, hash)` = `bcrypt.compare`: recompute
the digest using the salt embedded in the hash and compare. -/
def comparePassword (password : String) (hash : HashString) : Bool :=
  bcryptDigest hash.salt password == hash.digest

/-- A row of the SQLite `user` table (database.js): `id INTEGER PRIMARY KEY
AUTOINCREMENT, name, email TEXT UNIQUE, password` (the stored value is the
bcrypt hash). -/
structure UserRecord where
  id : Nat
  name : String
  email : String
  password : HashString
deriving DecidableEq, Repr

/-- The user view stored in the session file and in the in-memory
`currentUser` variable: `{ id, name, email, preferences }`. -/
structure SessionUser where
  id : Nat
  name : String
  email : String
  preferences : Prefs
deriving DecidableEq, Repr

/-- The shape written by `saveSession`:
`{ user, timestamp: Date.now(), expiresAt: Date.now() + SESSION_TIMEOUT }`. -/
structure SessionRecord where
  user : SessionUser
  timestamp : Nat
  expiresAt : Nat
deriving DecidableEq, Repr

/-- Observable content of the durable `user-session.json` file (see the
module docstring for the correspondence with `fs` + `JSON.parse`). -/
inductive SessionFile where
  | absent
  | unparseable
  | parsedInvalid
  | record (r : SessionRecord)
deriving DecidableEq, Repr

/-- The mutable state of the main process that the auth/session subsystem
reads and writes. -/
structure MainState where
  db : List UserRecord
  currentUser : Option SessionUser
  sessionFile : SessionFile
deriving DecidableEq, Repr

/-- Source constant `SESSION_TIMEOUT = 24 * 60 * 60 * 1000`. -/
def SESSION_TIMEOUT : Nat := 24 * 60 * 60 * 1000

/-- Source `clearSession()`: unlink the session file if it exists and set
`currentUser = null`. -/
def clearSession (st : MainState) : MainState :=
  { st with sessionFile := SessionFile.absent, currentUser := none }

/-- Source `loadSavedSession()`: read and parse the session file; a parse
error is caught and handled by `clearSession()`; a parsed record is used
only if it passes the truthiness check on `user` and `timestamp`, and only
if its age `now - timestamp` is below `SESSION_TIMEOUT`, in which case
`currentUser` is populated from it and the call returns `true`; an expired
record is cleared.  Returns the Boolean result together with the state
after the call. -/
def loadSavedSession (now : Nat) (st : MainState) : Bool × MainState :=
  match st.sessionFile with
  | SessionFile.absent => (false, st)
  | SessionFile.unparseable => (false, clearSession st)
  | SessionFile.parsedInvalid => (false, st)
  | SessionFile.record r =>
    if r.timestamp ≠ 0 then
      if now - r.timestamp < SESSION_TIMEOUT then
        (true, { st with currentUser := some r.user })
      else
        (false, clearSession st)
    else
      (false, st)

/-- Source `saveSession(userData)`: overwrite the session file with
`{ user: {id, name, email, preferences}, timestamp: Date.now(),
expiresAt: Date.now() + SESSION_TIMEOUT }`; both `Date.now()` reads are the
single `now` argument. -/
def saveSession (now : Nat) (userData : SessionUser) (st : MainState) : MainState :=
  { st with
    sessionFile := SessionFile.record
      { user :=
          { id := userData.id
            name := userData.name
            email := userData.email
            preferences := userData.preferences }
        timestamp := now
        expiresAt := now + SESSION_TIMEOUT } }

/-- Source `refreshSession()`: `if (currentUser) saveSession(currentUser)`. -/
def refreshSession (now : Nat) (st : MainState) : MainState :=
  match st.currentUser with
  | some u => saveSession now u st
  | none => st

/-- Source `getUserByEmail(email)`: `SELECT * FROM user WHERE email = ?`,
`null` when no row matches. -/
def getUserByEmail (db : List UserRecord) (email : String) : Option UserRecord :=
  match db with
  | [] => none
  | u :: rest => if u.email = email then some u else getUserByEmail rest email

/-- SQLite `AUTOINCREMENT` row id for the next insert: one more than the
largest id ever used (ids are never reused). -/
def nextRowId (db : List UserRecord) : Nat :=
  db.foldl (fun m u => max m u.id) 0 + 1

/-- Error thrown by the storage layer; the `email TEXT UNIQUE` column makes
a duplicate insert throw a constraint violation, distinct by construction
from any other storage error. -/
inductive DBError where
  | uniqueConstraint (msg : String)
deriving DecidableEq, Repr

/-- Message text carried by a storage error (`error.message` in JS). -/
def DBError.message : DBError → String
  | DBError.uniqueConstraint msg => msg

/-- Source `saveUserToDB({name, email, password})`: `INSERT INTO user ...`.
The `UNIQUE` constraint on `email` is the store-level authority: an insert
with an email already present throws instead of writing a row.  On success
returns `result.lastInsertRowid` and the new table. -/
def saveUserToDB (db : List UserRecord) (name email : String) (password : HashString) :
    Except DBError (Nat × List UserRecord) :=
  if (getUserByEmail db email).isSome then
    Except.error (DBError.uniqueConstraint "UNIQUE constraint failed: user.email")
  else
    Except.ok (nextRowId db,
      db ++ [{ id := nextRowId db, name := name, email := email, password := password }])

/-- Result returned by the `register-user` IPC handler:
`{success: true, userId}` or `{success: false, message}`. -/
inductive RegisterResult where
  | ok (userId : Nat)
  | err (message : String)
deriving DecidableEq, Repr

/-- Source `register-user` handler: pre-check `getUserByEmail`, answer
`'Email already registered'` on a hit; otherwise hash the password, insert,
and return the new id.  A storage error is caught and surfaced as
`{success: false, message: error.message}`. -/
def registerUser (salt : Nat) (name email password : String) (st : MainState) :
    RegisterResult × MainState :=
  match getUserByEmail st.db email with
  | some _ => (RegisterResult.err "Email already registered", st)
  | none =>
    match saveUserToDB st.db name email (hashPassword salt password) with
    | Except.ok (userId, db') => (RegisterResult.ok userId, { st with db := db' })
    | Except.error e => (RegisterResult.err e.message, st)

/-- Result returned by the `login-user` IPC handler:
`{success: true, user}` or `{success: false, message}`. -/
inductive LoginResult where
  | ok (user : SessionUser)
  | err (message : String)
deriving DecidableEq, Repr

/-- The default preferences installed at login:
`{ darkMode: false, lastUsedAI: 'claude' }`. -/
def defaultPreferences : Prefs :=
  [("darkMode", PrefVal.bool false), ("lastUsedAI", PrefVal.str "claude")]

/-- Source `login-user` handler: look the email up (`'User not found'` on a
miss), verify the password (`'Invalid password'` on failure), otherwise set
`currentUser` to the view `{id, name, email, preferences: defaults}`, save
the session and return the view. -/
def loginUser (now : Nat) (email password : String) (st : MainState) :
    LoginResult × MainState :=
  match getUserByEmail st.db email with
  | none => (LoginResult.err "User not found", st)
  | some user =>
    if comparePassword password user.password then
      let cu : SessionUser :=
        { id := user.id, name := user.name, email := user.email
          preferences := defaultPreferences }
      (LoginResult.ok cu, saveSession now cu { st with currentUser := some cu })
    else
      (LoginResult.err "Invalid password", st)

/-- Source `get-current-user` handler: if the in-memory `currentUser` is
set, re-validate with `loadSavedSession()`; on success refresh the session
timestamp and return `currentUser`, otherwise return `null`. -/
def getCurrentUser (now : Nat) (st : MainState) : Option SessionUser × MainState :=
  match st.currentUser with
  | none => (none, st)
  | some _ =>
    match loadSavedSession now st with
    | (true, st1) =>
      let st2 := refreshSession now st1
      (st2.currentUser, st2)
    | (false, st1) => (none, st1)

/-- Source `save-user-preferences` handler: no-op without an authenticated
user; otherwise `currentUser.preferences = { ...currentUser.preferences,
...preferences }` followed by `saveSession(currentUser)`. -/
def saveUserPreferences (now : Nat) (patch : Prefs) (st : MainState) : MainState :=
  match st.currentUser with
  | none => st
  | some u =>
    let u' : SessionUser := { u with preferences := mergePrefs u.preferences patch }
    saveSession now u' { st with currentUser := some u' }

/-- Source `validate-session` handler: `return loadSavedSession()`. -/
def validateSession (now : Nat) (st : MainState) : Bool × MainState :=
  loadSavedSession now st

/-- Source `logout` handler, restricted to the in-scope core: `clearSession()`. -/
def logout (st : MainState) : MainState :=
  clearSession st

/-! ### Sample data used by witnesses -/

/-- Sample authenticated user. -/
def sampleUser : SessionUser :=
  { id := 1, name := "Alice", email := "a@x.com", preferences := defaultPreferences }

/-- Sample durable session record created at time `t`. -/
def sampleRecord (t : Nat) : SessionRecord :=
  { user := sampleUser, timestamp := t, expiresAt := t + SESSION_TIMEOUT }

/-- Sample main-process state with an established session created at `t`. -/
def sampleState (t : Nat) : MainState :=
  { db := [], currentUser := some sampleUser,
    sessionFile := SessionFile.record (sampleRecord t) }

/-- Sample stored credential row whose hash verifies the password `pw123`. -/
def sampleRow : UserRecord :=
  { id := 1, name := "Alice", email := "a@x.com", password := hashPassword 7 "pw123" }


/-- Discipline obeyed by every write to the durable session file: an
operation leaves it untouched, deletes it, or rewrites it through
`saveSession`, in which case the stored `expiresAt` equals the stored
`timestamp` plus `SESSION_TIMEOUT`. -/
def fileWriteOk (old new : SessionFile) : Prop :=
  new = old ∨ new = SessionFile.absent ∨
    ∃ r, new = SessionFile.record r ∧ r.expiresAt = r.timestamp + SESSION_TIMEOUT

/-! ### Helper lemmas about preference objects -/

/-- Looking up a key that no entry carries yields `none`. -/
theorem lookupPref_eq_none_of_not_mem (prefs : Prefs) (k : String)
    (h : k ∉ prefs.map (fun p => p.1)) : lookupPref prefs k = none := by
  induction prefs with
  | nil => rfl
  | cons q qs ih =>
    simp only [List.map_cons, List.mem_cons] at h
    push_neg at h
    have hq : ¬ q.1 = k := fun hk => h.1 hk.symm
    simp only [lookupPref, if_neg hq]
    exact ih h.2

/-- Lookup after `setPref` at the assigned key. -/
theorem lookupPref_setPref_self (prefs : Prefs) (k : String) (v : PrefVal) :
    lookupPref (setPref prefs k v) k = some v := by
  unfold setPref
  by_cases hc : containsKey prefs k
  · rw [if_pos hc]
    induction prefs with
    | nil => simp [containsKey] at hc
    | cons q qs ih =>
      by_cases hq : q.1 = k
      · simp [lookupPref, hq]
      · simp only [containsKey, Bool.or_eq_true, decide_eq_true_eq] at hc
        rcases hc with hc | hc
        · exact absurd hc hq
        · simp only [List.map_cons, if_neg hq, lookupPref, hq, if_false]
          exact ih hc
  · rw [if_neg hc]
    induction prefs with
    | nil => simp [lookupPref]
    | cons q qs ih =>
      simp only [containsKey, Bool.or_eq_true, decide_eq_true_eq] at hc
      push_neg at hc
      simp only [List.cons_append, lookupPref, if_neg hc.1]
      exact ih hc.2

/-- Overwriting every entry of key `k` does not change lookups of another
key. -/
theorem lookupPref_map_assign_other (prefs : Prefs) (k k' : String) (v : PrefVal)
    (hne : k ≠ k') :
    lookupPref (prefs.map (fun p => if p.1 = k then (k, v) else p)) k' =
      lookupPref prefs k' := by
  induction prefs with
  | nil => rfl
  | cons q qs ih =>
    by_cases hq : q.1 = k
    · have hq' : ¬ q.1 = k' := fun h => hne (hq ▸ h)
      simp only [List.map_cons, if_pos hq, lookupPref, if_neg hne, if_neg hq']
      exact ih
    · simp only [List.map_cons, if_neg hq, lookupPref]
      by_cases hk' : q.1 = k'
      · rw [if_pos hk', if_pos hk']
      · rw [if_neg hk', if_neg hk']
        exact ih

/-- Appending an entry of key `k` does not change lookups of another key. -/
theorem lookupPref_append_assign_other (prefs : Prefs) (k k' : String) (v : PrefVal)
    (hne : k ≠ k') :
    lookupPref (prefs ++ [(k, v)]) k' = lookupPref prefs k' := by
  induction prefs with
  | nil => simp [lookupPref, if_neg hne]
  | cons q qs ih =>
    simp only [List.cons_append, lookupPref]
    by_cases hk' : q.1 = k'
    · rw [if_pos hk', if_pos hk']
    · rw [if_neg hk', if_neg hk']
      exact ih

/-- Lookup after `setPref` at any other key. -/
theorem lookupPref_setPref_other (prefs : Prefs) (k k' : String) (v : PrefVal)
    (hne : k ≠ k') :
    lookupPref (setPref prefs k v) k' = lookupPref prefs k' := by
  unfold setPref
  by_cases hc : containsKey prefs k
  · rw [if_pos hc]
    exact lookupPref_map_assign_other prefs k k' v hne
  · rw [if_neg hc]
    exact lookupPref_append_assign_other prefs k k' v hne

/-- Lookup in a JS object spread `{ ...old, ...patch }`: keys of `patch`
take the patch value, all other keys keep the value from `old`. -/
theorem lookupPref_mergePrefs (old patch : Prefs) (hpatch : NodupKeys patch) (k : String) :
    lookupPref (mergePrefs old patch) k =
      match lookupPref patch k with
      | some v => some v
      | none => lookupPref old k := by
  induction patch generalizing old with
  | nil => rfl
  | cons q qs ih =>
    have hnd : NodupKeys qs := by
      have h := hpatch
      simp only [NodupKeys, List.map_cons, List.nodup_cons] at h
      exact h.2
    have hnm : q.1 ∉ qs.map (fun p => p.1) := by
      have h := hpatch
      simp only [NodupKeys, List.map_cons, List.nodup_cons] at h
      exact h.1
    have hmerge : mergePrefs old (q :: qs) = mergePrefs (setPref old q.1 q.2) qs := rfl
    rw [hmerge, ih (setPref old q.1 q.2) hnd]
    by_cases hk : q.1 = k
    · subst hk
      rw [lookupPref_eq_none_of_not_mem qs q.1 hnm]
      simp [lookupPref, lookupPref_setPref_self]
    · rw [lookupPref_setPref_other old q.1 k q.2 hk]
      simp [lookupPref, hk]

/-! ### Claims -/

/-- C7: `restore()` (the source's `loadSavedSession`) is idempotent: for
every starting state and a fixed clock, a second call returns the same
Boolean as the first and changes nothing beyond what the first call already
did. -/
theorem c7_restore_idempotent (now : Nat) (st : MainState) :
    (loadSavedSession now (loadSavedSession now st).2).1 =
      (loadSavedSession now st).1 ∧
    (loadSavedSession now (loadSavedSession now st).2).2 =
      (loadSavedSession now st).2 := by
  cases hf : st.sessionFile with
  | absent => simp [loadSavedSession, hf]
  | unparseable => simp [loadSavedSession, clearSession, hf]
  | parsedInvalid => simp [loadSavedSession, hf]
  | record r =>
    by_cases ht : r.timestamp = 0
    · simp [loadSavedSession, hf, ht]
    · by_cases hv : now - r.timestamp < SESSION_TIMEOUT
      · simp [loadSavedSession, hf, ht, hv]
      · simp [loadSavedSession, clearSession, hf, ht, hv]

/-- C3 counterexample: a durable record that parses but fails the validity
check (for example the file holds `{}`) makes `loadSavedSession` return
`false` yet the corrupt record is NOT deleted, contradicting the claim that
the call clears it. -/
theorem c3_counterexample :
    (loadSavedSession 0
      { db := [], currentUser := none,
        sessionFile := SessionFile.parsedInvalid }).1 = false ∧
    (loadSavedSession 0
      { db := [], currentUser := none,
        sessionFile := SessionFile.parsedInvalid }).2.sessionFile ≠
      SessionFile.absent := by
  exact ⟨rfl, by decide⟩

/-- C3 (amended): an unparseable durable record makes the next
`loadSavedSession` return `false` — the no-session answer — and clears the
record; a record that parses but fails the shape/truthiness check also
returns `false` but is left in place (the state is completely unchanged);
with no record present the call returns `false` and changes nothing. -/
theorem c3_corrupt_session (now : Nat) (st : MainState) :
    (st.sessionFile = SessionFile.unparseable →
      (loadSavedSession now st).1 = false ∧
      (loadSavedSession now st).2.sessionFile = SessionFile.absent ∧
      (loadSavedSession now st).2.currentUser = none) ∧
    (st.sessionFile = SessionFile.parsedInvalid →
      (loadSavedSession now st).1 = false ∧
      (loadSavedSession now st).2 = st) ∧
    (st.sessionFile = SessionFile.absent →
      loadSavedSession now st = (false, st)) := by
  refine ⟨?_, ?_, ?_⟩
  · intro h
    simp [loadSavedSession, clearSession, h]
  · intro h
    simp [loadSavedSession, h]
  · intro h
    simp [loadSavedSession, h]

/-- C3 witness: the amended statement evaluated on concrete corrupt
states. -/
theorem c3_corrupt_session_witness :
    (loadSavedSession 5
      { db := [], currentUser := some sampleUser,
        sessionFile := SessionFile.unparseable }).2.sessionFile =
      SessionFile.absent ∧
    (loadSavedSession 5
      { db := [], currentUser := some sampleUser,
        sessionFile := SessionFile.parsedInvalid }).2 =
      { db := [], currentUser := some sampleUser,
        sessionFile := SessionFile.parsedInvalid } :=
  ⟨((c3_corrupt_session 5 _).1 rfl).2.1, ((c3_corrupt_session 5 _).2.1 rfl).2⟩

/-- C2: with a session established at time `T` (in-memory user set, durable
record with timestamp `T`), `get-current-user` at time `T'` returns the
session's user while `T' - T < SESSION_TIMEOUT` and returns `null` once
`T' - T ≥ SESSION_TIMEOUT`, in the latter case deleting the durable record
and resetting the in-memory user. -/
theorem c2_current_user_ttl (st : MainState) (u0 : SessionUser) (r : SessionRecord)
    (T T' : Nat) (hcur : st.currentUser = some u0)
    (hfile : st.sessionFile = SessionFile.record r)
    (hT : r.timestamp = T) (hpos : 0 < T) :
    (T' - T < SESSION_TIMEOUT → (getCurrentUser T' st).1 = some r.user) ∧
    (SESSION_TIMEOUT ≤ T' - T →
      (getCurrentUser T' st).1 = none ∧
      (getCurrentUser T' st).2.sessionFile = SessionFile.absent ∧
      (getCurrentUser T' st).2.currentUser = none) := by
  have hne : r.timestamp ≠ 0 := by omega
  constructor
  · intro h
    have hlt : T' - r.timestamp < SESSION_TIMEOUT := by omega
    simp [getCurrentUser, loadSavedSession, refreshSession, saveSession,
      hcur, hfile, hne, hlt]
  · intro h
    have hge : ¬ (T' - r.timestamp < SESSION_TIMEOUT) := by omega
    simp [getCurrentUser, loadSavedSession, clearSession, hcur, hfile, hne, hge]

/-- C2 witness: both branches evaluated on a session established at time 1,
queried at time 2 (valid) and at time `SESSION_TIMEOUT + 1` (expired). -/
theorem c2_current_user_ttl_witness :
    (getCurrentUser 2 (sampleState 1)).1 = some (sampleRecord 1).user ∧
    (getCurrentUser (SESSION_TIMEOUT + 1) (sampleState 1)).1 = none := by
  constructor
  · exact (c2_current_user_ttl (sampleState 1) sampleUser (sampleRecord 1) 1 2
      rfl rfl rfl (by decide)).1 (by decide)
  · exact ((c2_current_user_ttl (sampleState 1) sampleUser (sampleRecord 1) 1
      (SESSION_TIMEOUT + 1) rfl rfl rfl (by decide)).2 (by decide)).1

/-! ### Supporting lemmas for registration and login -/

/-- A row appended to a table that does not yet contain its email is found
by the email lookup. -/
theorem getUserByEmail_append_self (db : List UserRecord) (email : String)
    (u : UserRecord) (habs : getUserByEmail db email = none) (hu : u.email = email) :
    getUserByEmail (db ++ [u]) email = some u := by
  induction db with
  | nil => simp [getUserByEmail, hu]
  | cons q qs ih =>
    simp only [getUserByEmail, List.cons_append] at habs ⊢
    by_cases hq : q.email = email
    · rw [if_pos hq] at habs
      exact absurd habs (by simp)
    · rw [if_neg hq] at habs ⊢
      exact ih habs

/-- Verifying a password against the hash produced from it succeeds
(`bcrypt.compare(p, bcrypt.hash(p, rounds)) = true`). -/
theorem comparePassword_hashPassword (salt : Nat) (password : String) :
    comparePassword password (hashPassword salt password) = true := by
  simp [comparePassword, hashPassword]

/-- C1: when the store does not yet hold the email, `register` succeeds
with a fresh id and a subsequent `login` with the same credentials succeeds
and returns a user whose email equals the registered email exactly. -/
theorem c1_register_then_login (salt now : Nat) (name email password : String)
    (st : MainState) (habs : getUserByEmail st.db email = none) :
    ∃ userId u,
      (registerUser salt name email password st).1 = RegisterResult.ok userId ∧
      (loginUser now email password (registerUser salt name email password st).2).1 =
        LoginResult.ok u ∧
      u.email = email := by
  have hsave : saveUserToDB st.db name email (hashPassword salt password) =
      Except.ok (nextRowId st.db, st.db ++
        [{ id := nextRowId st.db, name := name, email := email,
           password := hashPassword salt password }]) := by
    simp [saveUserToDB, habs]
  have hfind : getUserByEmail (st.db ++
      [{ id := nextRowId st.db, name := name, email := email,
         password := hashPassword salt password }]) email =
      some { id := nextRowId st.db, name := name, email := email,
             password := hashPassword salt password } :=
    getUserByEmail_append_self st.db email _ habs rfl
  refine ⟨nextRowId st.db,
    { id := nextRowId st.db, name := name, email := email,
      preferences := defaultPreferences }, ?_, ?_, rfl⟩
  · simp [registerUser, habs, hsave]
  · simp [registerUser, habs, hsave, loginUser, hfind, comparePassword_hashPassword]

/-- C1 witness: registering Alice on an empty store and logging in with the
same credentials. -/
theorem c1_register_then_login_witness :
    ∃ userId u,
      (registerUser 7 "Alice" "a@x.com" "pw123"
        { db := [], currentUser := none, sessionFile := SessionFile.absent }).1 =
        RegisterResult.ok userId ∧
      (loginUser 1 "a@x.com" "pw123"
        (registerUser 7 "Alice" "a@x.com" "pw123"
          { db := [], currentUser := none, sessionFile := SessionFile.absent }).2).1 =
        LoginResult.ok u ∧
      u.email = "a@x.com" :=
  c1_register_then_login 7 1 "Alice" "a@x.com" "pw123"
    { db := [], currentUser := none, sessionFile := SessionFile.absent } rfl

/-- C4: registering an email already present fails with the dedicated
`'Email already registered'` answer, changes nothing (the stored row in
particular), and the store-level unique constraint independently rejects
any direct insert of that email with a `ConstraintViolation`-style error
distinct by construction from other storage failures. -/
theorem c4_register_duplicate (salt : Nat) (name email password : String)
    (st : MainState) (u : UserRecord)
    (hdup : getUserByEmail st.db email = some u) :
    (registerUser salt name email password st).1 =
      RegisterResult.err "Email already registered" ∧
    (registerUser salt name email password st).2 = st ∧
    (∀ hs : HashString, saveUserToDB st.db name email hs =
      Except.error (DBError.uniqueConstraint "UNIQUE constraint failed: user.email")) := by
  refine ⟨?_, ?_, ?_⟩
  · simp [registerUser, hdup]
  · simp [registerUser, hdup]
  · intro hs
    simp [saveUserToDB, hdup]

/-- C4 witness: duplicate registration against a store holding Alice's
row. -/
theorem c4_register_duplicate_witness :
    (registerUser 3 "Mallory" "a@x.com" "other"
      { db := [sampleRow], currentUser := none,
        sessionFile := SessionFile.absent }).1 =
      RegisterResult.err "Email already registered" ∧
    (registerUser 3 "Mallory" "a@x.com" "other"
      { db := [sampleRow], currentUser := none,
        sessionFile := SessionFile.absent }).2 =
      { db := [sampleRow], currentUser := none, sessionFile := SessionFile.absent } := by
  have h := c4_register_duplicate 3 "Mallory" "a@x.com" "other"
    { db := [sampleRow], currentUser := none, sessionFile := SessionFile.absent }
    sampleRow (by rfl)
  exact ⟨h.1, h.2.1⟩

/-- C5: a login for an absent email answers `'User not found'` and a login
whose password verification fails answers `'Invalid password'`; in both
cases the whole state — in-memory `currentUser` and durable session record
included — is returned unchanged. -/
theorem c5_login_failures (now : Nat) (email password : String) (st : MainState) :
    (getUserByEmail st.db email = none →
      loginUser now email password st = (LoginResult.err "User not found", st)) ∧
    (∀ u, getUserByEmail st.db email = some u →
      comparePassword password u.password = false →
      loginUser now email password st = (LoginResult.err "Invalid password", st)) := by
  constructor
  · intro h
    simp [loginUser, h]
  · intro u hu hcmp
    simp [loginUser, hu, hcmp]

/-- C5 witness: both failure branches on concrete stores. -/
theorem c5_login_failures_witness :
    loginUser 1 "b@x.com" "pw123"
      { db := [sampleRow], currentUser := none, sessionFile := SessionFile.absent } =
      (LoginResult.err "User not found",
        { db := [sampleRow], currentUser := none, sessionFile := SessionFile.absent }) ∧
    loginUser 1 "a@x.com" "wrong"
      { db := [sampleRow], currentUser := none, sessionFile := SessionFile.absent } =
      (LoginResult.err "Invalid password",
        { db := [sampleRow], currentUser := none, sessionFile := SessionFile.absent }) := by
  constructor
  · exact (c5_login_failures 1 "b@x.com" "pw123"
      { db := [sampleRow], currentUser := none,
        sessionFile := SessionFile.absent }).1 (by decide)
  · exact (c5_login_failures 1 "a@x.com" "wrong"
      { db := [sampleRow], currentUser := none,
        sessionFile := SessionFile.absent }).2 sampleRow (by rfl) (by decide)

/-- C6: refreshing an established session at time `T2` rewrites the durable
record anchored at `T2`, so the session validates successfully at every
time strictly before `T2 + SESSION_TIMEOUT` — including times at or past
the original `T + SESSION_TIMEOUT` expiry — and `refreshSession` is a
no-op whenever there is no current session. -/
theorem c6_refresh_extends_validity (st : MainState) (u : SessionUser)
    (r : SessionRecord) (T T2 : Nat) (hcur : st.currentUser = some u)
    (_hfile : st.sessionFile = SessionFile.record r) (_hT : r.timestamp = T)
    (_hfresh : T2 - T < SESSION_TIMEOUT) (hpos : 0 < T2) :
    (∀ T', T' < T2 + SESSION_TIMEOUT →
      (loadSavedSession T' (refreshSession T2 st)).1 = true) ∧
    (∀ st0 : MainState, st0.currentUser = none → refreshSession T2 st0 = st0) := by
  constructor
  · intro T' hT'
    have hlt : T' - T2 < SESSION_TIMEOUT := by omega
    have hne : T2 ≠ 0 := by omega
    simp [refreshSession, saveSession, loadSavedSession, hcur, hne, hlt]
  · intro st0 h0
    simp [refreshSession, h0]

/-- C6 witness: a session created at time 1 and refreshed at time
`SESSION_TIMEOUT - 1` still validates at `SESSION_TIMEOUT + 5`, a time past
the original expiry; and refresh does nothing on a session-less state. -/
theorem c6_refresh_extends_validity_witness :
    (loadSavedSession (SESSION_TIMEOUT + 5)
      (refreshSession (SESSION_TIMEOUT - 1) (sampleState 1))).1 = true ∧
    refreshSession (SESSION_TIMEOUT - 1)
      { db := [], currentUser := none, sessionFile := SessionFile.absent } =
      { db := [], currentUser := none, sessionFile := SessionFile.absent } := by
  have h := c6_refresh_extends_validity (sampleState 1) sampleUser (sampleRecord 1)
    1 (SESSION_TIMEOUT - 1) rfl rfl rfl (by decide) (by decide)
  exact ⟨h.1 (SESSION_TIMEOUT + 5) (by decide),
    h.2 { db := [], currentUser := none, sessionFile := SessionFile.absent } rfl⟩

/-- C8: `save-user-preferences` is a no-op without a current session;
otherwise it replaces the cached user's preferences by the shallow merge of
the old preferences with the patch (patch keys win, all other keys keep
their old value) and rewrites the durable session record with the updated
user and a fresh timestamp. -/
theorem c8_update_preferences (now : Nat) (patch : Prefs) (st : MainState) :
    (st.currentUser = none → saveUserPreferences now patch st = st) ∧
    (∀ u, st.currentUser = some u → NodupKeys patch →
      ∃ u' : SessionUser,
        u' = { u with preferences := mergePrefs u.preferences patch } ∧
        (saveUserPreferences now patch st).currentUser = some u' ∧
        (∀ k, lookupPref u'.preferences k =
          match lookupPref patch k with
          | some v => some v
          | none => lookupPref u.preferences k) ∧
        (saveUserPreferences now patch st).sessionFile =
          SessionFile.record { user := u', timestamp := now,
                               expiresAt := now + SESSION_TIMEOUT }) := by
  constructor
  · intro h
    simp [saveUserPreferences, h]
  · intro u hu hnd
    refine ⟨{ u with preferences := mergePrefs u.preferences patch }, rfl, ?_, ?_, ?_⟩
    · simp [saveUserPreferences, hu, saveSession]
    · intro k
      exact lookupPref_mergePrefs u.preferences patch hnd k
    · simp [saveUserPreferences, hu, saveSession]

/-- C8 witness: patching `darkMode` keeps `lastUsedAI` and rewrites the
durable record; the call without a session changes nothing. -/
theorem c8_update_preferences_witness :
    saveUserPreferences 9 [("darkMode", PrefVal.bool true)]
      { db := [], currentUser := none, sessionFile := SessionFile.absent } =
      { db := [], currentUser := none, sessionFile := SessionFile.absent } ∧
    ∃ u' : SessionUser,
      u' = { sampleUser with
             preferences := mergePrefs sampleUser.preferences
               [("darkMode", PrefVal.bool true)] } ∧
      (saveUserPreferences 9 [("darkMode", PrefVal.bool true)]
        (sampleState 1)).currentUser = some u' ∧
      (∀ k, lookupPref u'.preferences k =
        match lookupPref [("darkMode", PrefVal.bool true)] k with
        | some v => some v
        | none => lookupPref sampleUser.preferences k) ∧
      (saveUserPreferences 9 [("darkMode", PrefVal.bool true)]
        (sampleState 1)).sessionFile =
        SessionFile.record { user := u', timestamp := 9,
                             expiresAt := 9 + SESSION_TIMEOUT } := by
  constructor
  · exact (c8_update_preferences 9 [("darkMode", PrefVal.bool true)]
      { db := [], currentUser := none, sessionFile := SessionFile.absent }).1 rfl
  · exact (c8_update_preferences 9 [("darkMode", PrefVal.bool true)]
      (sampleState 1)).2 sampleUser rfl (by simp [NodupKeys])

/-- C9: the values returned to callers carry no password material: the
register result is identical whatever the submitted password is (it is a
fresh id or a fixed failure message), and the login result is either one of
two fixed failure messages or a user view rebuilt from exactly the stored
id, name and email plus the constant default preferences — never the
stored hash or the plaintext. -/
theorem c9_no_credential_in_results (salt now : Nat) (name email p1 p2 : String)
    (st : MainState) :
    (registerUser salt name email p1 st).1 = (registerUser salt name email p2 st).1 ∧
    ((loginUser now email p1 st).1 = LoginResult.err "User not found" ∨
     (loginUser now email p1 st).1 = LoginResult.err "Invalid password" ∨
     ∃ u, getUserByEmail st.db email = some u ∧
       (loginUser now email p1 st).1 = LoginResult.ok
         { id := u.id, name := u.name, email := u.email,
           preferences := defaultPreferences }) := by
  constructor
  · cases hdup : getUserByEmail st.db email with
    | some u => simp [registerUser, hdup]
    | none => simp [registerUser, hdup, saveUserToDB]
  · cases hfind : getUserByEmail st.db email with
    | none =>
      left
      simp [loginUser, hfind]
    | some u =>
      by_cases hcmp : comparePassword p1 u.password
      · right; right
        exact ⟨u, rfl, by simp [loginUser, hfind, hcmp]⟩
      · right; left
        simp [loginUser, hfind, hcmp]

/-- Any state produced by `saveSession` obeys the write discipline: its
durable record couples `expiresAt` to `timestamp`. -/
theorem fileWriteOk_saveSession (old : SessionFile) (now : Nat) (u : SessionUser)
    (st : MainState) : fileWriteOk old (saveSession now u st).sessionFile :=
  Or.inr (Or.inr ⟨_, rfl, rfl⟩)

/-- C10: every durable session record ever written satisfies
`expiresAt = timestamp + SESSION_TIMEOUT`: `saveSession` itself writes a
record anchored at the single clock reading `now` with exactly that expiry,
and each state-changing entry point — login, refresh, preference update,
the current-user query and registration — either leaves the durable file
alone, deletes it, or rewrites it through `saveSession` with the two fields
in that exact relation. -/
theorem c10_expiry_coupled_to_timestamp (now salt : Nat) (u : SessionUser)
    (patch : Prefs) (name email password : String) (st : MainState) :
    (∃ r, (saveSession now u st).sessionFile = SessionFile.record r ∧
      r.timestamp = now ∧ r.expiresAt = r.timestamp + SESSION_TIMEOUT) ∧
    fileWriteOk st.sessionFile (loginUser now email password st).2.sessionFile ∧
    fileWriteOk st.sessionFile (refreshSession now st).sessionFile ∧
    fileWriteOk st.sessionFile (saveUserPreferences now patch st).sessionFile ∧
    fileWriteOk st.sessionFile (getCurrentUser now st).2.sessionFile ∧
    fileWriteOk st.sessionFile (registerUser salt name email password st).2.sessionFile := by
  refine ⟨⟨_, rfl, rfl, rfl⟩, ?_, ?_, ?_, ?_, ?_⟩
  · cases hfind : getUserByEmail st.db email with
    | none =>
      simp [fileWriteOk, loginUser, hfind]
    | some w =>
      by_cases hcmp : comparePassword password w.password
      · simp only [loginUser, hfind, hcmp, if_true]
        exact fileWriteOk_saveSession _ _ _ _
      · simp [fileWriteOk, loginUser, hfind, hcmp]
  · cases hcur : st.currentUser with
    | none => simp [fileWriteOk, refreshSession, hcur]
    | some w =>
      simp only [refreshSession, hcur]
      exact fileWriteOk_saveSession _ _ _ _
  · cases hcur : st.currentUser with
    | none => simp [fileWriteOk, saveUserPreferences, hcur]
    | some w =>
      simp only [saveUserPreferences, hcur]
      exact fileWriteOk_saveSession _ _ _ _
  · cases hcur : st.currentUser with
    | none => simp [fileWriteOk, getCurrentUser, hcur]
    | some w =>
      cases hfile : st.sessionFile with
      | absent => simp [fileWriteOk, getCurrentUser, loadSavedSession, hcur, hfile]
      | unparseable =>
        simp [fileWriteOk, getCurrentUser, loadSavedSession, clearSession, hcur, hfile]
      | parsedInvalid => simp [fileWriteOk, getCurrentUser, loadSavedSession, hcur, hfile]
      | record r =>
        by_cases ht : r.timestamp = 0
        · simp [fileWriteOk, getCurrentUser, loadSavedSession, hcur, hfile, ht]
        · by_cases hv : now - r.timestamp < SESSION_TIMEOUT
          · simp only [getCurrentUser, loadSavedSession, refreshSession, hcur, hfile,
              ht, hv, ne_eq, not_false_eq_true, if_true, if_pos]
            exact fileWriteOk_saveSession _ _ _ _
          · simp [fileWriteOk, getCurrentUser, loadSavedSession, clearSession,
              hcur, hfile, ht, hv]
  · cases hfind : getUserByEmail st.db email with
    | some w => simp [fileWriteOk, registerUser, hfind]
    | none => simp [fileWriteOk, registerUser, hfind, saveUserToDB]
